import Mathlib

/-
Verification development for the canopus CoAP server core.

The definitions below are a shallow embedding of the Go sources:
the dispatch logic of CoapServer.handleMessage, the observation
registry (addObservation, hasObservation, removeObservation), the
notification path (NotifyChange), the message-id purge sweep
(handleMessageIdPurge) and the delivery queue stubs (queue.go).
Collaborator code that is not part of the given sources (message
constructors, option accessors, route matching, the retransmission
tick) is modelled from the specification; each such definition says
so in its doc comment.

Times are in nanoseconds (the unit of a Go time.Duration), tokens
and addresses are strings, message ids are natural numbers.
-/

set_option maxRecDepth 4096

namespace Canopus

/-- The four CoAP message types of the Go constants TYPE_CONFIRMABLE,
TYPE_NONCONFIRMABLE, TYPE_ACKNOWLEDGEMENT and TYPE_RESET. -/
inductive MType where
  | confirmable
  | nonConfirmable
  | acknowledgement
  | reset
deriving DecidableEq, Repr

/-- Value carried by a CoAP option: the Go interface value may be nil,
an integer or a string. -/
inductive OptVal where
  | nil
  | nat (n : Nat)
  | str (s : String)
deriving DecidableEq, Repr

/-- A single CoAP option: option number plus value. -/
structure CoapOption where
  id : Nat
  value : OptVal
deriving DecidableEq, Repr

/-- Modelled from the spec: CoAP option numbers Observe, URI-Path,
Content-Format and Proxy-URI (the Go constants live in a source file
that is not part of the given sources). -/
def OPTION_OBSERVE : Nat := 6

/-- Modelled from the spec: the URI-Path option number. -/
def OPTION_URI_PATH : Nat := 11

/-- Modelled from the spec: the Content-Format option number. -/
def OPTION_CONTENT_FORMAT : Nat := 12

/-- Modelled from the spec: the Proxy-URI option number. -/
def OPTION_PROXY_URI : Nat := 35

/-- Modelled from the spec: the method codes GET, POST, PUT, DELETE
used by handleMessage (constants file not among the given sources). -/
def GET : Nat := 1

/-- Modelled from the spec: the POST method code. -/
def POST : Nat := 2

/-- Modelled from the spec: the PUT method code. -/
def PUT : Nat := 3

/-- Modelled from the spec: the DELETE method code. -/
def DELETE : Nat := 4

/-- Modelled from the spec: response code constants used by the
message constructors called in handleMessage. -/
def COAPCODE_205_CONTENT : Nat := 69

/-- Modelled from the spec: the Bad Option response code. -/
def COAPCODE_402_BAD_OPTION : Nat := 130

/-- Modelled from the spec: the Not Found response code. -/
def COAPCODE_404_NOT_FOUND : Nat := 132

/-- Modelled from the spec: the Method Not Allowed response code. -/
def COAPCODE_405_METHOD_NOT_ALLOWED : Nat := 133

/-- Modelled from the spec: the Unsupported Content-Format response code. -/
def COAPCODE_415_UNSUPPORTED_CONTENT_FORMAT : Nat := 143

/-- Modelled from the spec: the Not Implemented response code. -/
def COAPCODE_501_NOT_IMPLEMENTED : Nat := 161

/-- The protocol unit of section 3 of the spec: type, code, 16-bit
message id, opaque token, ordered option list and payload. Token and
payload bytes are modelled as strings. -/
structure Message where
  messageType : MType
  code : Nat
  messageId : Nat
  token : String
  options : List CoapOption
  payload : String
deriving DecidableEq, Repr

/-- Modelled from the spec: Message.GetOption returns the first option
with the given number, if any (message accessor code is not among the
given sources). -/
def Message.getOption (m : Message) (id : Nat) : Option CoapOption :=
  m.options.find? (fun o => decide (o.id = id))

/-- Modelled from the spec: Message.GetOptions returns all options with
the given number, in order. -/
def Message.getOptions (m : Message) (id : Nat) : List CoapOption :=
  m.options.filter (fun o => decide (o.id = id))

/-- Modelled from the spec: Message.AddOption appends an option to the
message. -/
def Message.addOption (m : Message) (id : Nat) (v : OptVal) : Message :=
  { m with options := m.options ++ [⟨id, v⟩] }

/-- Modelled from the spec: Message.GetUriPath renders the URI-Path
options of the message as a path string, one slash-prefixed segment per
URI-Path option. -/
def Message.getUriPath (m : Message) : String :=
  String.join ((m.getOptions OPTION_URI_PATH).map (fun o =>
    match o.value with
    | .str s => "/" ++ s
    | _ => ""))

/-- Modelled from the spec: SetRequestURI replaces the URI-Path options
of the message by the given path. -/
def Message.setRequestURI (m : Message) (uri : String) : Message :=
  { m with options :=
      m.options.filter (fun o => !decide (o.id = OPTION_URI_PATH)) ++
      [⟨OPTION_URI_PATH, .str uri⟩] }

/-- Modelled from the spec: CloneOptions copies, for each listed option
number, the options of msg with that number onto ret. -/
def cloneOptions (ret msg : Message) (ids : List Nat) : Message :=
  { ret with options := ret.options ++ (ids.map (fun i => msg.getOptions i)).flatten }

/-- Modelled from the spec: NewMessageOfType builds a bare message of
the given type and id with no token, options or payload. -/
def NewMessageOfType (t : MType) (id : Nat) : Message :=
  ⟨t, 0, id, "", [], ""⟩

/-- Modelled from the spec: EmptyMessage builds a code-zero message of
the given id and type; handleMessage uses it for the duplicate Reset. -/
def EmptyMessage (id : Nat) (t : MType) : Message :=
  ⟨t, 0, id, "", [], ""⟩

/-- Modelled from the spec: NotFoundMessage builds a Not Found response
carrying only the given id and type. -/
def NotFoundMessage (id : Nat) (t : MType) : Message :=
  ⟨t, COAPCODE_404_NOT_FOUND, id, "", [], ""⟩

/-- Modelled from the spec: MethodNotAllowedMessage builds a Method Not
Allowed response carrying only the given id and type. Note it receives
neither token nor options of the request. -/
def MethodNotAllowedMessage (id : Nat) (t : MType) : Message :=
  ⟨t, COAPCODE_405_METHOD_NOT_ALLOWED, id, "", [], ""⟩

/-- Modelled from the spec: UnsupportedContentFormatMessage builds an
Unsupported Content-Format response from id and type alone. -/
def UnsupportedContentFormatMessage (id : Nat) (t : MType) : Message :=
  ⟨t, COAPCODE_415_UNSUPPORTED_CONTENT_FORMAT, id, "", [], ""⟩

/-- Modelled from the spec: NotImplementedMessage builds a Not
Implemented response from id and type alone. -/
def NotImplementedMessage (id : Nat) (t : MType) : Message :=
  ⟨t, COAPCODE_501_NOT_IMPLEMENTED, id, "", [], ""⟩

/-- Modelled from the spec: BadOptionMessage builds a Bad Option
response from id and type alone. -/
def BadOptionMessage (id : Nat) (t : MType) : Message :=
  ⟨t, COAPCODE_402_BAD_OPTION, id, "", [], ""⟩

/-- The queue item of queue.go: a request value with priority, heap
index, retry count and timestamp. -/
structure Item where
  value : Message
  priority : Int
  index : Int
  retries : Int
  ts : Option Nat
deriving DecidableEq, Repr

/-- The DefaultQueue of queue.go, holding its priority queue. -/
structure DefaultQueue where
  priorityQueue : List Item
deriving DecidableEq, Repr

/-- Embeds DefaultQueue.Get of queue.go, whose body returns q.Get(id):
the self-call is made explicit with a fuel argument, and the value none
marks that the given fuel was exhausted without the call returning. -/
def DefaultQueue.getFuel (q : DefaultQueue) : Nat → String → Option Item
  | 0, _ => none
  | n + 1, id => q.getFuel n id

/-- Embeds the purge sweep of handleMessageIdPurge: entries are pairs
of message id and first-seen time in nanoseconds, and an entry is
deleted exactly when the elapsed time now - ts exceeds d, where d is
the raw value of the constant MESSAGEID_PURGE_DURATION. The comparison
in the Go code is between a time.Duration in nanoseconds and that raw
constant, while the sweep interval is the same constant scaled by
time.Second. -/
def purgeMessageIds (d now : Nat) (ids : List (Nat × Nat)) : List (Nat × Nat) :=
  ids.filter (fun e => !decide (now - e.2 > d))

/-- Modelled from the spec: the DeliveryItem of the Retransmission
Scheduler in section 4.2, which queue.go declares but leaves
unimplemented. -/
structure DeliveryItem where
  msg : Message
  dest : String
  priority : Nat
  retries : Nat
  nextAttempt : Nat
  maxRetries : Nat
deriving DecidableEq, Repr

/-- Modelled from the spec: the trajectory of one never-acknowledged
DeliveryItem under repeated Tick calls of section 4.2, with Tick taken
at each due time. Each step with retry count below maxRetries sends at
the due time, increments the count and delays the next attempt by the
capped exponential backoff; once the count reaches maxRetries the item
is removed and the timeout event carrying message and destination is
emitted. The fuel bounds the number of steps; none in the second
component means the fuel ran out before the timeout fired. -/
def itemRun (base cap : Nat) : Nat → DeliveryItem → List Nat × Option (Message × String)
  | 0, _ => ([], none)
  | fuel + 1, it =>
    if it.retries < it.maxRetries then
      let t := it.nextAttempt
      let rest := itemRun base cap fuel
        { it with retries := it.retries + 1,
                  nextAttempt := t + min (base * 2 ^ (it.retries + 1)) cap }
      (t :: rest.1, rest.2)
    else ([], some (it.msg, it.dest))

/-- The exponential backoff schedule: n attempt times starting at t,
where the wait after the attempt numbered k is base times 2 to the k,
capped at cap. -/
def backoffTimes (base cap : Nat) : Nat → Nat → Nat → List Nat
  | _, _, 0 => []
  | t, k, n + 1 => t :: backoffTimes base cap (t + min (base * 2 ^ k) cap) (k + 1) n

/-- An entry of the route table: path, method string, accepted media
types, auto-acknowledge flag and handler. The handler maps the request
message to an optional response message; none embeds a NilResponse. -/
structure Route where
  path : String
  method : String
  mediaTypes : List Nat
  autoAck : Bool
  handler : Message → Option Message

/-- Embeds the Observation struct: peer address, token, resource
identifier and notification counter. -/
structure Observation where
  addr : String
  token : String
  resource : String
  notifyCount : Nat
deriving DecidableEq, Repr

/-- Embeds NewObservation, which starts the counter at zero. -/
def NewObservation (addr token resource : String) : Observation :=
  ⟨addr, token, resource, 0⟩

/-- Embeds the CoapServer state touched by the dispatch logic: the
tracked message ids with first-seen times, the route table, the
observation registry (a map from resource to observation list, as a
key-unique association list) and the pending delivery queue. -/
structure CoapServer where
  messageIds : List (Nat × Nat)
  routes : List Route
  observations : List (String × List Observation)
  queue : List DeliveryItem

/-- Map lookup on the observation registry: the list stored under a
resource, or the empty list when the key is absent (the Go nil slice
and the empty slice behave alike in every use below). -/
def lookupObs (m : List (String × List Observation)) (r : String) : List Observation :=
  match m.find? (fun e => decide (e.1 = r)) with
  | some e => e.2
  | none => []

/-- Map update on the observation registry: replaces the value of the
first entry with the given key, or appends a new entry. -/
def setObs : List (String × List Observation) → String → List Observation →
    List (String × List Observation)
  | [], r, l => [(r, l)]
  | e :: es, r, l => if e.1 = r then (r, l) :: es else e :: setObs es r l

/-- Embeds addObservation: appends a fresh Observation to the slice of
the resource, unconditionally. -/
def addObservation (m : List (String × List Observation)) (resource token addr : String) :
    List (String × List Observation) :=
  setObs m resource (lookupObs m resource ++ [NewObservation addr token resource])

/-- Embeds hasObservation: whether some observation of the resource has
the given peer address. -/
def hasObservation (m : List (String × List Observation)) (resource addr : String) : Bool :=
  (lookupObs m resource).any (fun o => decide (o.addr = addr))

/-- Removes the first observation with the given address from a slice,
as the loop of removeObservation does. -/
def removeFirstObs : List Observation → String → List Observation
  | [], _ => []
  | o :: os, addr => if o.addr = addr then os else o :: removeFirstObs os addr

/-- Embeds removeObservation: when the resource has an entry, drops the
first observation of the peer from its slice; otherwise the registry is
left as it is. -/
def removeObservation (m : List (String × List Observation)) (resource addr : String) :
    List (String × List Observation) :=
  match m.find? (fun e => decide (e.1 = resource)) with
  | none => m
  | some _ => setObs m resource (removeFirstObs (lookupObs m resource) addr)

/-- The decode error classification driving branch 4 of the dispatch
sequence: the unknown-critical-option error is handled specially, any
other decode error is only logged. -/
inductive DecodeErr where
  | unknownCriticalOption
  | other
deriving DecidableEq, Repr

/-- Events fired on the event sink that the dispatch logic below keeps
track of: notification confirmations, observe registration and
cancellation, and error reports. -/
inductive Ev where
  | notifyEv (path : String) (payload : String)
  | observeEv (resource : String)
  | observeCancelEv (resource : String)
  | errorEv
deriving DecidableEq, Repr

/-- The outcome of one handleMessage call: the outbound messages sent
to the peer in order, the message handed to the route handler (none
when no handler ran), the server state afterwards and the events
fired. -/
structure DispatchResult where
  sent : List Message
  handlerArg : Option Message
  server : CoapServer
  events : List Ev

/-- The route-resolution errors of the Route Table contract. -/
inductive RouteErr where
  | noMatchingRoute
  | noMatchingMethod
  | unsupportedContentFormat
deriving DecidableEq, Repr

/-- Modelled from the spec: MethodString renders a method code as the
string the route table stores. -/
def MethodString (code : Nat) : String :=
  if code = GET then "GET"
  else if code = POST then "POST"
  else if code = PUT then "PUT"
  else if code = DELETE then "DELETE"
  else ""

/-- Modelled from the spec: whether a route accepts the Content-Format
options of a request; a route without declared media types accepts
everything, otherwise every Content-Format value must be declared. -/
def routeAcceptsContentFormat (r : Route) (cfs : List CoapOption) : Bool :=
  r.mediaTypes.isEmpty || cfs.all (fun o =>
    match o.value with
    | .nat n => r.mediaTypes.contains n
    | _ => false)

/-- Modelled from the spec: MatchingRoute scans the route table with
the three filters path, method and content format in that order and
returns the first distinguishing error, or the first fully matching
route. -/
def MatchingRoute (path method : String) (cfs : List CoapOption) (routes : List Route) :
    Option Route × Option RouteErr :=
  let byPath := routes.filter (fun r => decide (r.path = path))
  if byPath.isEmpty then (none, some .noMatchingRoute)
  else
    let byMethod := byPath.filter (fun r => decide (r.method = method))
    if byMethod.isEmpty then (none, some .noMatchingMethod)
    else
      match byMethod.filter (fun r => routeAcceptsContentFormat r cfs) with
      | [] => (none, some .unsupportedContentFormat)
      | r :: _ => (some r, none)

/-- The method-support test of handleMessage: the code must be GET,
POST, PUT or DELETE. -/
def supportedCode (c : Nat) : Bool :=
  decide (c = GET) || decide (c = POST) || decide (c = PUT) || decide (c = DELETE)

/-- Modelled from the spec: ValidateMessage checks required fields of a
response before it is sent; in this model every message carries its id,
so validation always succeeds. -/
def ValidateMessage (m : Message) : Bool :=
  true

/-- Embeds the observe-option block of handleMessage (only entered for
Confirmable requests): when the request carries an Observe option with
nil value, an existing observation of (resource, peer) is removed and
the cancellation event fired, otherwise a new observation is appended
and the registration event fired; in either case the option Observe=1
is added to the in-flight request. Returns the new server state, the
request handed on to the handler, and the events fired. -/
def observeStep (s1 : CoapServer) (msg : Message) (addr : String) :
    CoapServer × Message × List Ev :=
  if msg.messageType = .confirmable then
    match msg.getOption OPTION_OBSERVE with
    | some o =>
      if o.value = .nil then
        if hasObservation s1.observations msg.getUriPath addr then
          ({ s1 with observations :=
              removeObservation s1.observations msg.getUriPath addr },
           msg.addOption OPTION_OBSERVE (.nat 1), [.observeCancelEv msg.getUriPath])
        else
          ({ s1 with observations :=
              addObservation s1.observations msg.getUriPath msg.token addr },
           msg.addOption OPTION_OBSERVE (.nat 1), [.observeEv msg.getUriPath])
      else (s1, msg, [])
    | none => (s1, msg, [])
  else (s1, msg, [])

/-- Embeds the matched-route tail of handleMessage: the message id is
recorded with the current time, a bare Acknowledgement goes out first
when the request is Confirmable and the route auto-acknowledges, the
observe block runs, and the handler is invoked on the possibly marked
request; a nil response is silence, any other response is sent after
validation. -/
def handleMatched (s : CoapServer) (msg : Message) (route : Route) (addr : String)
    (now : Nat) : DispatchResult :=
  let step := observeStep { s with messageIds := s.messageIds ++ [(msg.messageId, now)] } msg addr
  { sent :=
      (if msg.messageType = .confirmable ∧ route.autoAck = true then
        [NewMessageOfType .acknowledgement msg.messageId]
      else []) ++
      (match route.handler step.2.1 with
       | none => []
       | some respMsg => if ValidateMessage respMsg = true then [respMsg] else []),
    handlerArg := some step.2.1,
    server := step.1,
    events := step.2.2 }

/-- Embeds the route-resolution part of handleMessage: the three route
errors answer with Not Found (which alone echoes the token), Method Not
Allowed and Unsupported Content-Format, each echoing the URI-Path and
Content-Format options, and each returning before the duplicate check;
with a matched route the duplicate check answers a Confirmable repeat
with a Reset and drops a non-Confirmable repeat, and a fresh id goes on
to the matched-route tail. -/
def handleRouted (s : CoapServer) (msg : Message) (addr : String) (now : Nat) :
    DispatchResult :=
  match MatchingRoute msg.getUriPath (MethodString msg.code)
      (msg.getOptions OPTION_CONTENT_FORMAT) s.routes with
  | (_, some .noMatchingRoute) =>
    let ret0 := cloneOptions (NotFoundMessage msg.messageId .acknowledgement) msg
      [OPTION_URI_PATH, OPTION_CONTENT_FORMAT]
    ⟨[{ ret0 with token := msg.token }], none, s, [.errorEv]⟩
  | (_, some .noMatchingMethod) =>
    ⟨[cloneOptions (MethodNotAllowedMessage msg.messageId .acknowledgement) msg
        [OPTION_URI_PATH, OPTION_CONTENT_FORMAT]], none, s, [.errorEv]⟩
  | (_, some .unsupportedContentFormat) =>
    ⟨[cloneOptions (UnsupportedContentFormatMessage msg.messageId .acknowledgement) msg
        [OPTION_URI_PATH, OPTION_CONTENT_FORMAT]], none, s, [.errorEv]⟩
  | (some route, none) =>
    if (s.messageIds.find? (fun e => decide (e.1 = msg.messageId))).isSome then
      if msg.messageType = .confirmable then
        ⟨[cloneOptions (EmptyMessage msg.messageId .reset) msg
            [OPTION_URI_PATH, OPTION_CONTENT_FORMAT]], none, s, []⟩
      else ⟨[], none, s, []⟩
    else handleMatched s msg route addr now
  | (none, none) => ⟨[], none, s, []⟩

/-- Embeds handleMessage: an Acknowledgement with an Observe option is
forwarded as a notification confirmation, a bare Acknowledgement and a
Reset are dropped, an unsupported method code answers Not Implemented,
an unknown-critical-option decode error answers Bad Option for
Confirmable requests and drops the rest silently, any other decode
error is reported and processing continues, a proxy request goes to the
(by default no-op) proxy handler, and everything else is routed. -/
def handleMessage (s : CoapServer) (msg : Message) (decodeErr : Option DecodeErr)
    (addr : String) (now : Nat) : DispatchResult :=
  if msg.messageType = .acknowledgement then
    if (msg.getOption OPTION_OBSERVE).isSome then
      ⟨[], none, s, [.notifyEv msg.getUriPath msg.payload]⟩
    else ⟨[], none, s, []⟩
  else if msg.messageType = .reset then
    ⟨[], none, s, []⟩
  else if supportedCode msg.code = false then
    ⟨[cloneOptions (NotImplementedMessage msg.messageId .acknowledgement) msg
        [OPTION_URI_PATH, OPTION_CONTENT_FORMAT]], none, s, []⟩
  else if decodeErr = some .unknownCriticalOption then
    if msg.messageType = .confirmable then
      ⟨[BadOptionMessage msg.messageId .acknowledgement], none, s, [.errorEv]⟩
    else ⟨[], none, s, [.errorEv]⟩
  else
    if (msg.getOption OPTION_PROXY_URI).isSome then
      ⟨[], none, s, if decodeErr = some DecodeErr.other then [Ev.errorEv] else []⟩
    else
      ⟨(handleRouted s msg addr now).sent, (handleRouted s msg addr now).handlerArg,
       (handleRouted s msg addr now).server,
       (if decodeErr = some DecodeErr.other then [Ev.errorEv] else []) ++
         (handleRouted s msg addr now).events⟩

/-- Embeds the loop body of NotifyChange: the one request object is
mutated in place for each observation (token, payload and request URI
replaced, counter incremented, an Observe option appended) and a copy
of its state at the send statement goes to the peer; the final request
state carries over into the next iteration. Returns the updated
observation slice and the messages sent with their destinations. -/
def notifyLoop (value : String) : Message → List Observation →
    List Observation × List (Message × String)
  | _, [] => ([], [])
  | req, o :: os =>
    let c := o.notifyCount + 1
    let req3 := (Message.setRequestURI
        { req with token := o.token, payload := value } o.resource).addOption
        OPTION_OBSERVE (.nat c)
    let rest := notifyLoop value req3 os
    ({ o with notifyCount := c } :: rest.1, (req3, o.addr) :: rest.2)

/-- Embeds NotifyChange: with no entry for the resource nothing
happens; otherwise a single fresh request (Confirmable when confirm is
set, Acknowledgement otherwise, code 205, the generated message id) is
threaded through the observation slice, one send per observation. The
delivery queue is not touched anywhere in NotifyChange. -/
def NotifyChange (s : CoapServer) (resource value : String) (confirm : Bool)
    (msgId : Nat) : CoapServer × List (Message × String) :=
  match s.observations.find? (fun e => decide (e.1 = resource)) with
  | none => (s, [])
  | some e =>
    let req :=
      if confirm then (⟨.confirmable, COAPCODE_205_CONTENT, msgId, "", [], ""⟩ : Message)
      else ⟨.acknowledgement, COAPCODE_205_CONTENT, msgId, "", [], ""⟩
    let res := notifyLoop value req e.2
    ({ s with observations := setObs s.observations resource res.1 }, res.2)

/-- The invariant of section 3 of the spec on the observation
registry: within every resource entry, peer addresses are pairwise
distinct, so at most one observation exists per (resource, peer). -/
def obsInvariant (m : List (String × List Observation)) : Prop :=
  ∀ e ∈ m, e.2.Pairwise (fun o p => o.addr ≠ p.addr)

/-- A handler answering with silence, used by the concrete routes
below. -/
def nilHandler : Message → Option Message := fun _ => none

/-- Concrete route: GET on /temp, no auto-acknowledge. -/
def rtTempGet : Route := ⟨"/temp", "GET", [], false, nilHandler⟩

/-- Concrete route: POST on /temp. -/
def rtTempPost : Route := ⟨"/temp", "POST", [], false, nilHandler⟩

/-- Concrete Confirmable GET of /temp with message id 42 and token tk. -/
def msg42 : Message :=
  ⟨.confirmable, GET, 42, "tk", [⟨OPTION_URI_PATH, .str "temp"⟩], ""⟩

/-- Concrete server that has already seen message id 42 and serves GET
on /temp. -/
def sDup : CoapServer := ⟨[(42, 0)], [rtTempGet], [], []⟩

/-- Concrete server that has seen id 42 but has no routes at all. -/
def sNoRoutes : CoapServer := ⟨[(42, 0)], [], [], []⟩

/-- Concrete completely empty server. -/
def sEmpty : CoapServer := ⟨[], [], [], []⟩

/-- Concrete Confirmable GET of /temp carrying a valueless Observe
option. -/
def msgObs : Message :=
  ⟨.confirmable, GET, 1, "tk",
    [⟨OPTION_URI_PATH, .str "temp"⟩, ⟨OPTION_OBSERVE, .nil⟩], ""⟩

/-- Concrete non-Confirmable GET of /temp carrying a valueless Observe
option. -/
def msgObsNon : Message :=
  ⟨.nonConfirmable, GET, 1, "tk",
    [⟨OPTION_URI_PATH, .str "temp"⟩, ⟨OPTION_OBSERVE, .nil⟩], ""⟩

/-- Concrete server with the /temp GET route and no state. -/
def sRt : CoapServer := ⟨[], [rtTempGet], [], []⟩

/-- Concrete Confirmable GET of /temp with token ab. -/
def msgC9 : Message :=
  ⟨.confirmable, GET, 7, "ab", [⟨OPTION_URI_PATH, .str "temp"⟩], ""⟩

/-- Concrete server accepting only POST on /temp. -/
def sPost : CoapServer := ⟨[], [rtTempPost], [], []⟩

/-- Concrete observation of peer pa with counter 3. -/
def obA : Observation := ⟨"pa", "ta", "/temp", 3⟩

/-- Concrete observation of peer pb with counter 0. -/
def obB : Observation := ⟨"pb", "tb", "/temp", 0⟩

/-- Concrete server with two observations of /temp. -/
def sObs : CoapServer := ⟨[], [], [("/temp", [obA, obB])], []⟩

/-- Concrete pending delivery item with message id 7. -/
def itemId7 : DeliveryItem := ⟨⟨.confirmable, GET, 7, "", [], ""⟩, "p", 0, 0, 0, 4⟩

/-- Concrete server with a pending delivery item of message id 7. -/
def sPend : CoapServer := ⟨[(3, 0)], [], [("/temp", [obA])], [itemId7]⟩

/-- Concrete Reset message with id 7. -/
def msgReset7 : Message := ⟨.reset, 0, 7, "", [], ""⟩

/-- Claim C10: the claim states that DefaultQueue.Get terminates and
returns a value for every queue and id; in the code Get calls itself
with the same arguments, so no amount of fuel makes the modelled call
return: the recursion never terminates. -/
theorem C10_get_diverges (q : DefaultQueue) (id : String) :
    ∀ n : Nat, q.getFuel n id = none := by
  intro n
  induction n with
  | zero => rfl
  | succ m ih => simpa [DefaultQueue.getFuel] using ih

/-- Claim C8: the purge sweep runs every MESSAGEID_PURGE_DURATION
seconds (here 60, that is 60000000000 ns) but deletes every entry whose
age in nanoseconds exceeds the raw constant 60: an entry first seen one
second before the sweep, far younger than the sixty-second retention
window the claim states, is removed. -/
theorem C8_purge_window :
    purgeMessageIds 60 1000000000 [(5, 0)] = [] ∧
    1000000000 < 60 * 1000000000 :=
  ⟨rfl, by norm_num⟩

lemma backoffTimes_length (base cap : Nat) :
    ∀ (n t k : Nat), (backoffTimes base cap t k n).length = n := by
  intro n
  induction n with
  | zero => intro t k; rfl
  | succ m ih => intro t k; simp [backoffTimes, ih]

lemma one_le_backoff_gap {base cap : Nat} (hb : 1 ≤ base) (hc : 1 ≤ cap) (k : Nat) :
    1 ≤ min (base * 2 ^ k) cap := by
  refine le_min ?_ hc
  calc 1 = 1 * 1 := (Nat.mul_one 1).symm
  _ ≤ base * 2 ^ k := Nat.mul_le_mul hb (Nat.two_pow_pos k)

lemma backoffTimes_chain {base cap : Nat} (hb : 1 ≤ base) (hc : 1 ≤ cap) :
    ∀ (n t k : Nat), List.Chain' (fun a b => a < b) (backoffTimes base cap t k n) := by
  intro n
  induction n with
  | zero => intro t k; simp [backoffTimes]
  | succ m ih =>
    intro t k
    rw [backoffTimes]
    refine List.chain'_cons'.mpr ⟨?_, ih _ _⟩
    intro b hbmem
    cases m with
    | zero => simp [backoffTimes] at hbmem
    | succ p =>
      rw [backoffTimes] at hbmem
      simp only [List.head?_cons, Option.mem_def, Option.some.injEq] at hbmem
      subst hbmem
      have hgap := @one_le_backoff_gap base cap hb hc k
      omega

lemma itemRun_eq {base cap : Nat} :
    ∀ (n : Nat) (it : DeliveryItem), it.maxRetries = it.retries + n →
    itemRun base cap (n + 1) it =
      (backoffTimes base cap it.nextAttempt (it.retries + 1) n,
       some (it.msg, it.dest)) := by
  intro n
  induction n with
  | zero =>
    intro it h
    rw [itemRun, if_neg (by omega)]
    rfl
  | succ m ih =>
    intro it h
    have hlt : it.retries < it.maxRetries := by omega
    have h2 := ih
      { it with retries := it.retries + 1,
                nextAttempt := it.nextAttempt + min (base * 2 ^ (it.retries + 1)) cap }
      (show it.maxRetries = it.retries + 1 + m by omega)
    rw [itemRun, if_pos hlt]
    dsimp only at h2 ⊢
    rw [h2, backoffTimes]

/-- Claim C6: a DeliveryItem with fresh retry count and maxRetries N
that is never acknowledged makes exactly N send attempts, at strictly
increasing times following the capped exponential backoff schedule,
after which the timeout outcome carrying the original message and
destination fires. The Scheduler tick is modelled from the spec (the
queue in the sources is an unimplemented stub). -/
theorem C6_retry_schedule (base cap N : Nat) (it : DeliveryItem)
    (hb : 1 ≤ base) (hc : 1 ≤ cap) (h0 : it.retries = 0) (hN : it.maxRetries = N) :
    (itemRun base cap (N + 1) it).1 = backoffTimes base cap it.nextAttempt 1 N ∧
    (itemRun base cap (N + 1) it).1.length = N ∧
    List.Chain' (fun a b => a < b) (itemRun base cap (N + 1) it).1 ∧
    (itemRun base cap (N + 1) it).2 = some (it.msg, it.dest) := by
  have h := @itemRun_eq base cap N it (by omega)
  rw [h0] at h
  refine ⟨by rw [h], by rw [h]; exact backoffTimes_length base cap N _ _,
    by rw [h]; exact backoffTimes_chain hb hc N _ _, by rw [h]⟩

/-- Witness for C6 at base 1, cap 8, three retries starting at time 5:
the attempts happen at 5, 7 and 11 and then the timeout fires. -/
theorem C6_retry_schedule_witness :
    1 ≤ (1 : Nat) ∧ 1 ≤ (8 : Nat) ∧
    (itemRun 1 8 4 ⟨⟨.confirmable, 1, 9, "", [], ""⟩, "d", 0, 0, 5, 3⟩).1 = [5, 7, 11] ∧
    (itemRun 1 8 4 ⟨⟨.confirmable, 1, 9, "", [], ""⟩, "d", 0, 0, 5, 3⟩).1.length = 3 ∧
    List.Chain' (fun a b => a < b)
      (itemRun 1 8 4 ⟨⟨.confirmable, 1, 9, "", [], ""⟩, "d", 0, 0, 5, 3⟩).1 ∧
    (itemRun 1 8 4 ⟨⟨.confirmable, 1, 9, "", [], ""⟩, "d", 0, 0, 5, 3⟩).2 =
      some (⟨.confirmable, 1, 9, "", [], ""⟩, "d") := by
  have h := C6_retry_schedule 1 8 3 ⟨⟨.confirmable, 1, 9, "", [], ""⟩, "d", 0, 0, 5, 3⟩
    (by decide) (by decide) rfl rfl
  exact ⟨by decide, by decide, by rw [h.1]; rfl, h.2.1, h.2.2.1, h.2.2.2⟩

lemma hasObservation_false_forall {m : List (String × List Observation)} {r a : String}
    (h : hasObservation m r a = false) : ∀ o ∈ lookupObs m r, o.addr ≠ a := by
  intro o ho hEq
  have hx : (lookupObs m r).any (fun o => decide (o.addr = a)) = true :=
    List.any_eq_true.mpr ⟨o, ho, by simp [hEq]⟩
  rw [hasObservation, hx] at h
  exact Bool.true_eq_false.mp h

lemma removeFirstObs_of_forall {l : List Observation} {a : String}
    (h : ∀ o ∈ l, o.addr ≠ a) : removeFirstObs l a = l := by
  induction l with
  | nil => rfl
  | cons o os ih =>
    rw [removeFirstObs, if_neg (h o (List.mem_cons_self o os)),
      ih (fun p hp => h p (List.mem_cons_of_mem o hp))]

lemma lookupObs_cons_pos {e : String × List Observation}
    {es : List (String × List Observation)} {r : String} (he : e.1 = r) :
    lookupObs (e :: es) r = e.2 := by
  rw [lookupObs, List.find?_cons_of_pos _ (by simp [he])]

lemma lookupObs_cons_neg {e : String × List Observation}
    {es : List (String × List Observation)} {r : String} (he : ¬ e.1 = r) :
    lookupObs (e :: es) r = lookupObs es r := by
  rw [lookupObs, List.find?_cons_of_neg _ (by simp [he]), lookupObs]

lemma setObs_lookup_self (m : List (String × List Observation)) (r : String)
    (h : (m.find? (fun e => decide (e.1 = r))).isSome = true) :
    setObs m r (lookupObs m r) = m := by
  induction m with
  | nil => simp [List.find?] at h
  | cons e es ih =>
    by_cases he : e.1 = r
    · rw [setObs, if_pos he, lookupObs_cons_pos he, ← he]
    · have hf : (es.find? (fun e => decide (e.1 = r))).isSome = true := by
        rw [List.find?_cons_of_neg _ (by simp [he])] at h
        exact h
      rw [setObs, if_neg he, lookupObs_cons_neg he, ih hf]

lemma removeObservation_of_not_has (m : List (String × List Observation)) (r a : String)
    (h : hasObservation m r a = false) : removeObservation m r a = m := by
  rw [removeObservation]
  cases hf : m.find? (fun e => decide (e.1 = r)) with
  | none => rfl
  | some e =>
    rw [removeFirstObs_of_forall (hasObservation_false_forall h)]
    exact setObs_lookup_self m r (by rw [hf]; rfl)

lemma removeFirstObs_sublist (l : List Observation) (a : String) :
    (removeFirstObs l a).Sublist l := by
  induction l with
  | nil => exact List.Sublist.refl []
  | cons o os ih =>
    rw [removeFirstObs]
    by_cases h : o.addr = a
    · rw [if_pos h]; exact List.sublist_cons_self o os
    · rw [if_neg h]; exact ih.cons₂ o

lemma lookupObs_pairwise {m : List (String × List Observation)} {r : String}
    (hm : obsInvariant m) :
    (lookupObs m r).Pairwise (fun o p => o.addr ≠ p.addr) := by
  rw [lookupObs]
  cases hf : m.find? (fun e => decide (e.1 = r)) with
  | none => exact List.Pairwise.nil
  | some e => exact hm e (List.mem_of_find?_eq_some hf)

lemma obsInvariant_setObs :
    ∀ (m : List (String × List Observation)) (r : String) (l : List Observation),
    obsInvariant m → l.Pairwise (fun o p => o.addr ≠ p.addr) →
    obsInvariant (setObs m r l) := by
  intro m
  induction m with
  | nil =>
    intro r l _ hl e he
    rw [setObs] at he
    rcases List.mem_singleton.mp he with rfl
    exact hl
  | cons e0 es ih =>
    intro r l hm hl e he
    rw [setObs] at he
    by_cases h0 : e0.1 = r
    · rw [if_pos h0] at he
      rcases List.mem_cons.mp he with rfl | hmem
      · exact hl
      · exact hm _ (List.mem_cons_of_mem _ hmem)
    · rw [if_neg h0] at he
      rcases List.mem_cons.mp he with rfl | hmem
      · exact hm _ (List.mem_cons_self _ _)
      · exact ih r l (fun x hx => hm x (List.mem_cons_of_mem _ hx)) hl e hmem

lemma obsInvariant_removeObservation {m : List (String × List Observation)}
    {r a : String} (hm : obsInvariant m) :
    obsInvariant (removeObservation m r a) := by
  rw [removeObservation]
  cases hf : m.find? (fun e => decide (e.1 = r)) with
  | none => exact hm
  | some e =>
    exact obsInvariant_setObs m r _ hm
      ((lookupObs_pairwise hm).sublist (removeFirstObs_sublist _ _))

lemma obsInvariant_addObservation {m : List (String × List Observation)}
    {r tok a : String} (hm : obsInvariant m) (h : hasObservation m r a = false) :
    obsInvariant (addObservation m r tok a) := by
  rw [addObservation]
  refine obsInvariant_setObs m r _ hm ?_
  rw [List.pairwise_append]
  refine ⟨lookupObs_pairwise hm, by simp, ?_⟩
  intro o ho p hp
  rcases List.mem_singleton.mp hp with rfl
  exact hasObservation_false_forall h o ho

lemma obsInvariant_observeStep {s1 : CoapServer} {msg : Message} {addr : String}
    (h : obsInvariant s1.observations) :
    obsInvariant (observeStep s1 msg addr).1.observations := by
  rw [observeStep]
  split
  · split
    · split
      · split
        · exact obsInvariant_removeObservation h
        · next hno =>
          exact obsInvariant_addObservation h (by simpa using hno)
      · exact h
    · exact h
  · exact h

lemma obsInvariant_handleRouted {s : CoapServer} {msg : Message} {addr : String}
    {now : Nat} (h : obsInvariant s.observations) :
    obsInvariant (handleRouted s msg addr now).server.observations := by
  rw [handleRouted]
  split
  · exact h
  · exact h
  · exact h
  · split
    · split
      · exact h
      · exact h
    · rw [handleMatched]
      exact obsInvariant_observeStep h
  · exact h

lemma obsInvariant_handleMessage {s : CoapServer} {msg : Message}
    {d : Option DecodeErr} {addr : String} {now : Nat}
    (h : obsInvariant s.observations) :
    obsInvariant (handleMessage s msg d addr now).server.observations := by
  rw [handleMessage]
  split
  · split
    · exact h
    · exact h
  · split
    · exact h
    · split
      · exact h
      · split
        · split
          · exact h
          · exact h
        · split
          · exact h
          · exact obsInvariant_handleRouted h

lemma handleMessage_routed {s : CoapServer} {msg : Message} {d : Option DecodeErr}
    {addr : String} {now : Nat}
    (h1 : msg.messageType = MType.confirmable ∨ msg.messageType = MType.nonConfirmable)
    (h2 : supportedCode msg.code = true)
    (h3 : d ≠ some DecodeErr.unknownCriticalOption)
    (h4 : msg.getOption OPTION_PROXY_URI = none) :
    handleMessage s msg d addr now =
      ⟨(handleRouted s msg addr now).sent, (handleRouted s msg addr now).handlerArg,
       (handleRouted s msg addr now).server,
       (if d = some DecodeErr.other then [Ev.errorEv] else []) ++
         (handleRouted s msg addr now).events⟩ := by
  have ha : ¬ msg.messageType = MType.acknowledgement := by
    rcases h1 with h | h <;> simp [h]
  have hr : ¬ msg.messageType = MType.reset := by
    rcases h1 with h | h <;> simp [h]
  rw [handleMessage, if_neg ha, if_neg hr, if_neg (by simp [h2]), if_neg h3,
    if_neg (by simp [h4])]

/-- Claim C1 (amended): for every inbound message that reaches the
duplicate-id check, that is, a Confirmable or non-Confirmable message
with a supported method code, without an unknown-critical-option decode
error, not a proxy request, and with successful route resolution, whose
message id is already tracked: when Confirmable, the dispatcher answers
with a Reset of the same message id echoing the URI-Path and
Content-Format options; when non-Confirmable it sends nothing; in both
cases no route handler runs and the server state is unchanged. The
original claim fails for duplicates stopped by the earlier branches,
which answer with their own error responses instead of a Reset. -/
theorem C1_dedup (s : CoapServer) (msg : Message) (d : Option DecodeErr)
    (addr : String) (now : Nat) (route : Route)
    (h1 : msg.messageType = MType.confirmable ∨ msg.messageType = MType.nonConfirmable)
    (h2 : supportedCode msg.code = true)
    (h3 : d ≠ some DecodeErr.unknownCriticalOption)
    (h4 : msg.getOption OPTION_PROXY_URI = none)
    (h5 : MatchingRoute msg.getUriPath (MethodString msg.code)
      (msg.getOptions OPTION_CONTENT_FORMAT) s.routes = (some route, none))
    (h6 : (s.messageIds.find? (fun e => decide (e.1 = msg.messageId))).isSome = true) :
    handleMessage s msg d addr now =
      ⟨(if msg.messageType = MType.confirmable then
          [cloneOptions (EmptyMessage msg.messageId .reset) msg
            [OPTION_URI_PATH, OPTION_CONTENT_FORMAT]]
        else []), none, s,
       (if d = some DecodeErr.other then [Ev.errorEv] else [])⟩ := by
  rw [handleMessage_routed h1 h2 h3 h4]
  simp only [handleRouted, h5, h6, if_true]
  rcases h1 with h | h
  · rw [if_pos h, if_pos h]
    simp
  · have hnc : ¬ msg.messageType = MType.confirmable := by simp [h]
    rw [if_neg hnc, if_neg hnc]
    simp

/-- Witness for C1: a duplicate Confirmable GET of /temp with tracked
id 42 on a server that serves the route is answered with a Reset of id
42 and path option echoed, and the state does not change. -/
theorem C1_dedup_witness :
    (MatchingRoute "/temp" "GET" [] [rtTempGet] = (some rtTempGet, none)) ∧
    (sDup.messageIds.map Prod.fst = [42]) ∧
    handleMessage sDup msg42 none "p" 9 =
      ⟨[⟨.reset, 0, 42, "", [⟨OPTION_URI_PATH, .str "temp"⟩], ""⟩], none, sDup, []⟩ :=
  ⟨rfl, rfl, by
    have h := C1_dedup sDup msg42 none "p" 9 rtTempGet (Or.inl rfl) rfl
      (by decide) rfl rfl rfl
    simpa using h⟩

/-- Counterexample to C1 as stated: message id 42 is already tracked
and the message is Confirmable, yet the dispatcher answers with a Not
Found Acknowledgement rather than a Reset, because the route-resolution
branch returns before the duplicate check is reached. -/
theorem C1_cex :
    (sNoRoutes.messageIds.map Prod.fst = [42]) ∧
    msg42.messageType = MType.confirmable ∧
    (handleMessage sNoRoutes msg42 none "p" 9).sent.map Message.messageType =
      [MType.acknowledgement] ∧
    MType.acknowledgement ≠ MType.reset :=
  ⟨rfl, rfl, rfl, by decide⟩

/-- Claim C2 (amended): a Confirmable request with a supported method,
no unknown-critical-option error and no proxy option whose path matches
no route is answered with a Not Found Acknowledgement of the same
message id that echoes the URI-Path and Content-Format options and the
requester token; no handler runs and the server state, in particular
the deduplication set, is left unchanged: the message id is NOT
recorded, against the final part of the original claim. -/
theorem C2_not_found (s : CoapServer) (msg : Message) (d : Option DecodeErr)
    (addr : String) (now : Nat)
    (h1 : msg.messageType = MType.confirmable)
    (h2 : supportedCode msg.code = true)
    (h3 : d ≠ some DecodeErr.unknownCriticalOption)
    (h4 : msg.getOption OPTION_PROXY_URI = none)
    (h5 : MatchingRoute msg.getUriPath (MethodString msg.code)
      (msg.getOptions OPTION_CONTENT_FORMAT) s.routes = (none, some .noMatchingRoute)) :
    handleMessage s msg d addr now =
      ⟨[⟨MType.acknowledgement, COAPCODE_404_NOT_FOUND, msg.messageId, msg.token,
         msg.getOptions OPTION_URI_PATH ++ msg.getOptions OPTION_CONTENT_FORMAT, ""⟩],
       none, s,
       (if d = some DecodeErr.other then [Ev.errorEv] else []) ++ [Ev.errorEv]⟩ := by
  rw [handleMessage_routed (Or.inl h1) h2 h3 h4]
  simp only [handleRouted, h5]
  simp [cloneOptions, NotFoundMessage]

/-- Witness for C2: a Confirmable GET of /temp against a server without
routes is answered with the Not Found Acknowledgement echoing path and
token, and the server state stays exactly sEmpty. -/
theorem C2_not_found_witness :
    (MatchingRoute "/temp" "GET" [] ([] : List Route) = (none, some .noMatchingRoute)) ∧
    handleMessage sEmpty msg42 none "p" 9 =
      ⟨[⟨MType.acknowledgement, COAPCODE_404_NOT_FOUND, 42, "tk",
         [⟨OPTION_URI_PATH, .str "temp"⟩], ""⟩], none, sEmpty, [Ev.errorEv]⟩ :=
  ⟨rfl, by
    have h := C2_not_found sEmpty msg42 none "p" 9 rfl rfl (by decide) rfl rfl
    simpa using h⟩

/-- Counterexample to C2 as stated: the Confirmable GET with id 42 and
no matching route is answered Not Found, but the deduplication set
stays empty: the message id is not recorded, because the Not Found
branch returns before the recording statement. -/
theorem C2_cex :
    msg42.messageType = MType.confirmable ∧
    (handleMessage sEmpty msg42 none "p" 9).sent.map Message.code =
      [COAPCODE_404_NOT_FOUND] ∧
    sEmpty.messageIds = [] ∧
    (handleMessage sEmpty msg42 none "p" 9).server.messageIds = [] :=
  ⟨rfl, rfl, rfl, rfl⟩

/-- Claim C3: NotifyChange on the resource /temp with two observations
(counters 3 and 0) under confirm = true sends exactly two Confirmable
messages, in registry order, each to its peer, each carrying the stored
token of that peer and an Observe option with the incremented counter
of that peer (4 and 1; the second message also retains the stale option
of the first iteration, since the one request object is mutated in
place and options accumulate), and both counters are incremented in the
registry. However nothing at all is enqueued into the delivery queue,
which stays empty: the retransmission scheduler of queue.go is an
unimplemented stub and NotifyChange never touches it, against the part
of the claim that each notification is enqueued into the scheduler. -/
theorem C3_notify_eval :
    (NotifyChange sObs "/temp" "21.5" true 77).2 =
      [(⟨.confirmable, COAPCODE_205_CONTENT, 77, "ta",
          [⟨OPTION_URI_PATH, .str "/temp"⟩, ⟨OPTION_OBSERVE, .nat 4⟩], "21.5"⟩, "pa"),
       (⟨.confirmable, COAPCODE_205_CONTENT, 77, "tb",
          [⟨OPTION_OBSERVE, .nat 4⟩, ⟨OPTION_URI_PATH, .str "/temp"⟩,
           ⟨OPTION_OBSERVE, .nat 1⟩], "21.5"⟩, "pb")] ∧
    (NotifyChange sObs "/temp" "21.5" true 77).1.observations =
      [("/temp", [⟨"pa", "ta", "/temp", 4⟩, ⟨"pb", "tb", "/temp", 1⟩])] ∧
    sObs.queue = [] ∧
    (NotifyChange sObs "/temp" "21.5" true 77).1.queue = [] :=
  ⟨rfl, rfl, rfl, rfl⟩

/-- Claim C4 (amended): for a CONFIRMABLE request that reaches handler
dispatch (supported method, no unknown-critical-option error, not a
proxy request, matched route, fresh message id) and carries an Observe
option with absent value: when no observation of (resource, peer)
exists one is registered and the registration event fires, when one
exists it is cancelled and the cancellation event fires; in both cases
the in-flight request handed to the handler is marked with an appended
Observe option of value 1, and the message id is recorded. The original
claim ranges over every inbound request, but the code runs this block
only for Confirmable requests. -/
theorem C4_observe (s : CoapServer) (msg : Message) (d : Option DecodeErr)
    (addr : String) (now : Nat) (route : Route) (o : CoapOption)
    (h1 : msg.messageType = MType.confirmable)
    (h2 : supportedCode msg.code = true)
    (h3 : d ≠ some DecodeErr.unknownCriticalOption)
    (h4 : msg.getOption OPTION_PROXY_URI = none)
    (h5 : MatchingRoute msg.getUriPath (MethodString msg.code)
      (msg.getOptions OPTION_CONTENT_FORMAT) s.routes = (some route, none))
    (h6 : (s.messageIds.find? (fun e => decide (e.1 = msg.messageId))).isSome = false)
    (h7 : msg.getOption OPTION_OBSERVE = some o)
    (h8 : o.value = OptVal.nil) :
    (handleMessage s msg d addr now).server.observations =
      (if hasObservation s.observations msg.getUriPath addr = true then
        removeObservation s.observations msg.getUriPath addr
      else addObservation s.observations msg.getUriPath msg.token addr) ∧
    (handleMessage s msg d addr now).server.messageIds =
      s.messageIds ++ [(msg.messageId, now)] ∧
    (handleMessage s msg d addr now).handlerArg =
      some (msg.addOption OPTION_OBSERVE (.nat 1)) ∧
    (handleMessage s msg d addr now).events =
      (if d = some DecodeErr.other then [Ev.errorEv] else []) ++
      (if hasObservation s.observations msg.getUriPath addr = true then
        [Ev.observeCancelEv msg.getUriPath] else [Ev.observeEv msg.getUriPath]) := by
  rw [handleMessage_routed (Or.inl h1) h2 h3 h4]
  simp only [handleRouted, h5, h6, Bool.false_eq_true, if_false]
  rw [handleMatched]
  simp only [observeStep, h1, if_true, h7, h8]
  by_cases hob : hasObservation s.observations msg.getUriPath addr = true
  · have hob1 : hasObservation
        ({ s with messageIds := s.messageIds ++ [(msg.messageId, now)] } :
          CoapServer).observations msg.getUriPath addr = true := hob
    simp only [hob1, hob, if_true]
    simp
  · have hob1 : ¬ hasObservation
        ({ s with messageIds := s.messageIds ++ [(msg.messageId, now)] } :
          CoapServer).observations msg.getUriPath addr = true := hob
    simp only [if_neg hob1, if_neg hob]
    simp

/-- Witness for C4, registration case: a Confirmable GET of /temp with
valueless Observe option against a server without observations makes
the dispatcher register Observation (peer p, token tk, /temp, counter
0), fire the registration event, and hand the handler the request with
Observe option 1 appended. -/
theorem C4_observe_witness :
    (msgObs.getOption OPTION_OBSERVE = some ⟨OPTION_OBSERVE, OptVal.nil⟩) ∧
    (handleMessage sRt msgObs none "p" 9).server.observations =
      [("/temp", [⟨"p", "tk", "/temp", 0⟩])] ∧
    (handleMessage sRt msgObs none "p" 9).handlerArg =
      some ⟨.confirmable, GET, 1, "tk",
        [⟨OPTION_URI_PATH, .str "temp"⟩, ⟨OPTION_OBSERVE, .nil⟩,
         ⟨OPTION_OBSERVE, .nat 1⟩], ""⟩ ∧
    (handleMessage sRt msgObs none "p" 9).events = [Ev.observeEv "/temp"] := by
  have h := C4_observe sRt msgObs none "p" 9 rtTempGet ⟨OPTION_OBSERVE, OptVal.nil⟩
    rfl rfl (by decide) rfl rfl rfl rfl rfl
  exact ⟨rfl, by rw [h.1]; rfl, by rw [h.2.2.1]; rfl, by rw [h.2.2.2]; rfl⟩

/-- Counterexample to C4 as stated: a NON-Confirmable request carrying
a valueless Observe option, with a matching route and fresh id, leads
to no registration at all (the registry stays empty) and the handler
receives the request without the Observe mark, because the code guards
the whole observe block with a Confirmable-type test. -/
theorem C4_cex :
    msgObsNon.messageType = MType.nonConfirmable ∧
    msgObsNon.getOption OPTION_OBSERVE = some ⟨OPTION_OBSERVE, OptVal.nil⟩ ∧
    sRt.observations = [] ∧
    (handleMessage sRt msgObsNon none "p" 9).server.observations = [] ∧
    (handleMessage sRt msgObsNon none "p" 9).handlerArg = some msgObsNon :=
  ⟨rfl, rfl, rfl, rfl, rfl⟩

/-- Claim C5 (amended): cancelling an observation of a (resource, peer)
pair that is not registered leaves the registry unchanged, and the full
dispatch path preserves the at-most-one-observation-per-pair invariant,
because the dispatcher only calls addObservation under a negative
hasObservation guard. The raw addObservation itself, when called on an
already registered pair, appends a duplicate rather than leaving the
registry unchanged, so the first half of the original claim fails at
the level of the registration primitive. -/
theorem C5_registry (m : List (String × List Observation)) (r a : String)
    (s : CoapServer) (msg : Message) (d : Option DecodeErr) (addr : String) (now : Nat)
    (h1 : hasObservation m r a = false) (h2 : obsInvariant s.observations) :
    removeObservation m r a = m ∧
    obsInvariant (handleMessage s msg d addr now).server.observations :=
  ⟨removeObservation_of_not_has m r a h1, obsInvariant_handleMessage h2⟩

/-- Witness for C5: cancelling the unregistered pair (r, q) is a no-op
on a concrete registry, and a concrete observe-registering dispatch
preserves the uniqueness invariant. -/
theorem C5_registry_witness :
    hasObservation [("r", [⟨"p", "t", "r", 0⟩])] "r" "q" = false ∧
    removeObservation [("r", [⟨"p", "t", "r", 0⟩])] "r" "q" =
      [("r", [⟨"p", "t", "r", 0⟩])] ∧
    obsInvariant (handleMessage sRt msgObs none "p" 9).server.observations := by
  have h := C5_registry [("r", [⟨"p", "t", "r", 0⟩])] "r" "q" sRt msgObs none "p" 9
    rfl (by intro e he; simp [sRt] at he)
  exact ⟨rfl, h.1, h.2⟩

/-- Counterexample to C5 as stated: registering the already registered
pair (r, p) via addObservation does not leave the registry unchanged:
the slice of r grows from one to two observations with the same peer
address. -/
theorem C5_cex :
    hasObservation [("r", [⟨"p", "t", "r", 0⟩])] "r" "p" = true ∧
    (lookupObs (addObservation [("r", [⟨"p", "t", "r", 0⟩])] "r" "t2" "p") "r").map
      Observation.addr = ["p", "p"] ∧
    (lookupObs [("r", [⟨"p", "t", "r", 0⟩])] "r").length = 1 ∧
    (lookupObs (addObservation [("r", [⟨"p", "t", "r", 0⟩])] "r" "t2" "p") "r").length = 2 :=
  ⟨rfl, rfl, rfl, rfl⟩

/-- Claim C7: an inbound Reset is dropped without any outbound message
and without invoking a handler, and the whole server state, including
the pending delivery queue holding the item with the same message id 7,
is untouched; no acknowledge or removal operation on the scheduler is
called anywhere (the Queue interface of queue.go does not even declare
one), against the part of the claim that the pending DeliveryItem is
removed. -/
theorem C7_reset_drop :
    msgReset7.messageType = MType.reset ∧
    sPend.queue = [itemId7] ∧
    itemId7.msg.messageId = 7 ∧
    (handleMessage sPend msgReset7 none "p" 9).sent = [] ∧
    (handleMessage sPend msgReset7 none "p" 9).handlerArg = none ∧
    (handleMessage sPend msgReset7 none "p" 9).server.queue = [itemId7] ∧
    (handleMessage sPend msgReset7 none "p" 9).server.messageIds = [(3, 0)] ∧
    (handleMessage sPend msgReset7 none "p" 9).server.observations =
      [("/temp", [obA])] ∧
    (handleMessage sPend msgReset7 none "p" 9).events = [] :=
  ⟨rfl, rfl, rfl, rfl, rfl, rfl, rfl, rfl, rfl⟩

/-- Claim C9 (amended): of the three route-resolution error responses,
only the Not Found one echoes the requester token; the Method Not
Allowed and Unsupported Content-Format responses carry the empty token,
since their constructors receive only message id and type and the
dispatcher assigns the token solely in the Not Found branch. No handler
runs in any of the three cases. -/
theorem C9_token (s : CoapServer) (msg : Message) (d : Option DecodeErr)
    (addr : String) (now : Nat) (e : RouteErr)
    (h1 : msg.messageType = MType.confirmable ∨ msg.messageType = MType.nonConfirmable)
    (h2 : supportedCode msg.code = true)
    (h3 : d ≠ some DecodeErr.unknownCriticalOption)
    (h4 : msg.getOption OPTION_PROXY_URI = none)
    (h5 : MatchingRoute msg.getUriPath (MethodString msg.code)
      (msg.getOptions OPTION_CONTENT_FORMAT) s.routes = (none, some e)) :
    (handleMessage s msg d addr now).sent.map Message.token =
      [if e = RouteErr.noMatchingRoute then msg.token else ""] ∧
    (handleMessage s msg d addr now).handlerArg = none := by
  rw [handleMessage_routed h1 h2 h3 h4]
  cases e <;>
    simp [handleRouted, h5, cloneOptions, NotFoundMessage, MethodNotAllowedMessage,
      UnsupportedContentFormatMessage]

/-- Witness for C9: the Not Found response to a request with token ab
echoes that token. -/
theorem C9_token_witness :
    msgC9.token = "ab" ∧
    (handleMessage sEmpty msgC9 none "p" 9).sent.map Message.token = ["ab"] ∧
    (handleMessage sEmpty msgC9 none "p" 9).handlerArg = none := by
  have h := C9_token sEmpty msgC9 none "p" 9 RouteErr.noMatchingRoute (Or.inl rfl) rfl
    (by decide) rfl rfl
  exact ⟨rfl, by rw [h.1]; rfl, h.2⟩

/-- Counterexample to C9 as stated: a Confirmable GET with token ab
whose path matches a route but whose method does not receives a Method
Not Allowed response whose token is empty, not the requester token. -/
theorem C9_cex :
    msgC9.token = "ab" ∧
    (handleMessage sPost msgC9 none "p" 9).sent.map Message.code =
      [COAPCODE_405_METHOD_NOT_ALLOWED] ∧
    (handleMessage sPost msgC9 none "p" 9).sent.map Message.token = [""] ∧
    ("" : String) ≠ "ab" :=
  ⟨rfl, rfl, rfl, by decide⟩

end Canopus
